import Mathlib

/-!
Verification of the marb static-asset HTTP server (main.go).

The development shallowly embeds the Go source: pure helpers from the
standard library path package are implemented byte-for-byte after their
Go definitions, stateful pieces (the file map built during the startup
walk) become explicit state passing, and the operating-system surface
(lstat, stat, a single Read call, gzip, MIME lookup, HTTP-date parsing
and formatting) is modelled explicitly.  Bodies are byte lists, time is
an integer timeline.
-/

namespace Marb

/-! ## Go standard-library path functions (package path)

These follow the Go source of path.Clean, path.Join, path.Base,
path.Dir and path.Ext.  Clean is implemented with the usual segment
stack, which is equivalent to the index-based loop in the Go source:
empty and dot segments are dropped, a dotdot segment pops the previous
segment unless there is none (kept when the path is relative, dropped
when rooted) or the previous segment is itself a dotdot.
-/

/-- strings.Split on the slash character, written as structural
recursion over the character list so that it computes inside the
kernel; it agrees with the Go function on every input. -/
def splitSlash : List Char → List Char → List String
  | [], cur => [String.mk cur.reverse]
  | c :: rest, cur =>
    if c = '/' then String.mk cur.reverse :: splitSlash rest []
    else splitSlash rest (c :: cur)

/-- strings.Join with the slash separator. -/
def joinSlash : List String → String
  | [] => ""
  | [x] => x
  | x :: xs => x ++ "/" ++ joinSlash xs

/-- Whether the first byte of the path is a slash (Go: path[0] equals
the slash character; the paths this program forms never start with a
non-ASCII rune, where byte and char indexing agree). -/
def headIsSlash (p : String) : Bool :=
  match p.toList with
  | '/' :: _ => true
  | _ => false

def cleanPush (rooted : Bool) (acc : List String) (seg : String) : List String :=
  if seg = "" ∨ seg = "." then acc
  else if seg = ".." then
    match acc with
    | [] => if rooted then [] else [".."]
    | a :: rest => if a = ".." then ".." :: a :: rest else rest
  else seg :: acc

def pathClean (p : String) : String :=
  if p = "" then "."
  else
    let rooted := headIsSlash p
    let segs := (splitSlash p.toList []).foldl (cleanPush rooted) []
    let body := joinSlash segs.reverse
    if rooted then (if body = "" then "/" else "/" ++ body)
    else (if body = "" then "." else body)

/-- Go path.Join on two elements: skip leading empty elements, then
Clean the slash-joined rest. -/
def pathJoin (a b : String) : String :=
  if a ≠ "" then pathClean (a ++ "/" ++ b)
  else if b ≠ "" then pathClean b
  else ""

/-- Go path.Base: empty path gives ".", trailing slashes are stripped,
the last element is returned, a path of only slashes gives "/". -/
def pathBase (p : String) : String :=
  if p = "" then "."
  else
    let cs := p.toList.reverse.dropWhile (fun c => c = '/')
    if cs = [] then "/"
    else String.mk (cs.takeWhile (fun c => c ≠ '/')).reverse

/-- Go path.Dir: everything up to and including the final slash,
cleaned.  A path without a slash gives ".". -/
def pathDir (p : String) : String :=
  pathClean (String.mk (p.toList.reverse.dropWhile (fun c => c ≠ '/')).reverse)

/-- Go path.Ext: the suffix of the final element starting at its last
dot, or the empty string when the final element has no dot. -/
def pathExt (p : String) : String :=
  let seg := p.toList.reverse.takeWhile (fun c => c ≠ '/')
  let afterDot := seg.takeWhile (fun c => c ≠ '.')
  if afterDot.length = seg.length then ""
  else String.mk ('.' :: afterDot.reverse)

/-! ## Bytes, headers, responses -/

/-- The UTF-8 encoding of one code point. -/
def utf8Bytes (n : Nat) : List Nat :=
  if n < 128 then [n]
  else if n < 2048 then [192 + n / 64, 128 + n % 64]
  else if n < 65536 then [224 + n / 4096, 128 + n / 64 % 64, 128 + n % 64]
  else [240 + n / 262144, 128 + n / 4096 % 64, 128 + n / 64 % 64, 128 + n % 64]

/-- Bytes of the UTF-8 encoding of a string, as a list of naturals. -/
def strBytes (s : String) : List Nat :=
  s.toList.foldr (fun c acc => utf8Bytes c.toNat ++ acc) []

/-- The HTTP response headers this program ever touches.  The Go code
manipulates an http.Header map but only through the fixed keys below,
so the map is modelled as one optional slot per key. -/
structure Headers where
  contentLength : Option String := none
  contentType : Option String := none
  lastModified : Option String := none
  contentEncoding : Option String := none
  location : Option String := none
  allow : Option String := none
  xContentTypeOptions : Option String := none
deriving Repr, DecidableEq

def Headers.empty : Headers := {}

/-- What the handler produced: status code, headers, body bytes as
written by the handler code. -/
structure Response where
  status : Nat
  headers : Headers
  body : List Nat
deriving Repr, DecidableEq

/-- The Go net/http server discards body writes made while answering a
HEAD request, so on the wire a HEAD response never carries a body. -/
def wireResponse (method : String) (resp : Response) : Response :=
  if method = "HEAD" then { resp with body := [] } else resp

/-- Go http.StatusText for the sole code this program redirects with. -/
def statusText (code : Nat) : String :=
  if code = 301 then "Moved Permanently" else ""

/-- Go net/http htmlEscape: its replacer rewrites the five HTML-special
characters, each a single-character pattern, so it is a per-character
substitution. -/
def htmlEscapeChar (c : Char) : List Char :=
  if c = '&' then "&amp;".toList
  else if c = '<' then "&lt;".toList
  else if c = '>' then "&gt;".toList
  else if c = '\x22' then "&#34;".toList
  else if c = '\x27' then "&#39;".toList
  else [c]

def htmlEscape (s : String) : String :=
  String.mk (s.toList.foldr (fun c acc => htmlEscapeChar c ++ acc) [])

def hexDigitUpper (n : Nat) : Char :=
  if n < 10 then Char.ofNat (48 + n) else Char.ofNat (55 + n)

/-- Go net/http hexEscapeNonASCII: percent-escape every byte of the
UTF-8 encoding that is 0x80 or above, using uppercase hex digits;
a string of plain ASCII bytes is returned unchanged. -/
def hexEscapeNonASCII (s : String) : String :=
  let bs := strBytes s
  if bs.all (fun b => b < 128) then s
  else String.mk (bs.foldr (fun b acc =>
    if 128 ≤ b then '%' :: hexDigitUpper (b / 16) :: hexDigitUpper (b % 16) :: acc
    else Char.ofNat b :: acc) [])

/-- Go http.Redirect: set Location (hex-escaped); when no Content-Type
was already set and the request method is GET, also set an HTML
Content-Type and write a small HTML link body; then write the status. -/
def httpRedirect (method : String) (h : Headers) (url : String) (code : Nat) : Response :=
  let hadCT := h.contentType.isSome
  let h := { h with location := some (hexEscapeNonASCII url) }
  if ¬ hadCT ∧ method = "GET" then
    { status := code,
      headers := { h with contentType := some "text/html; charset=utf-8" },
      body := strBytes ("<a href=\x22" ++ htmlEscape url ++ "\x22>" ++ statusText code ++ "</a>.\n") }
  else
    { status := code, headers := h, body := [] }

/-- Go http.Error: drop Content-Length, set a plain-text Content-Type
and nosniff, write the status, then write the message and a newline
regardless of the request method. -/
def httpError (h : Headers) (msg : String) (code : Nat) : Response :=
  { status := code,
    headers := { h with contentLength := none,
                        contentType := some "text/plain; charset=utf-8",
                        xContentTypeOptions := some "nosniff" },
    body := strBytes (msg ++ "\n") }

/-- Go http.NotFound. -/
def httpNotFound (h : Headers) : Response :=
  httpError h "404 page not found" 404

/-! ## Standard-library collaborators

The loader and handler call into the Go standard library for gzip
compression, MIME lookup, content sniffing, and HTTP-date handling.
These are opaque to the program logic, so they are parameters of the
embedding: theorems quantify over them. -/

structure Stdlib where
  /-- gzip.Writer Write followed by Close on a fresh buffer: the
  compressed bytes, or none when the Write call reports an error. -/
  gzip : List Nat → Option (List Nat)
  /-- mime.TypeByExtension; the empty string means unrecognized. -/
  mimeByExt : String → String
  /-- http.DetectContentType on the leading content bytes. -/
  detectContentType : List Nat → String
  /-- time.Parse with http.TimeFormat; none when parsing fails. -/
  parseTime : String → Option Int
  /-- time.Time.Format with http.TimeFormat. -/
  formatTime : Int → String

/-! ## The asset record (type siteFile, main.go:17-33) -/

structure siteFile where
  contents : List Nat
  mimeType : String
  isGzipped : Bool
  name : String
  dir : String
  lastModified : Int
deriving Repr, DecidableEq

/-- main.go:26-33.  Set Content-Length, Content-Type and Last-Modified
from the record, plus Content-Encoding gzip when stored compressed. -/
def siteFile.SetHeaders (std : Stdlib) (f : siteFile) (h : Headers) : Headers :=
  let h := { h with contentLength := some (toString f.contents.length),
                    contentType := some f.mimeType,
                    lastModified := some (std.formatTime f.lastModified) }
  if f.isGzipped then { h with contentEncoding := some "gzip" } else h

/-! ## Load-time ingestion (main.go:35-85) -/

/-- main.go:35-53.  Attempt gzip; on a write error log and return
(nil, false); when the compressed form is not strictly smaller return
(nil, false); otherwise return the compressed bytes and true. -/
def compressContents (std : Stdlib) (contents : List Nat) : Option (List Nat) × Bool :=
  match std.gzip contents with
  | none => (none, false)
  | some buf =>
    if contents.length ≤ buf.length then (none, false)
    else (some buf, true)

/-- The buffer after the single f.Read call in readFile (main.go:70):
the buffer has length size; the read fills it with the leading bytes of
the data the file holds at read time and leaves the rest zero. -/
def readBuf (data : List Nat) (size : Nat) : List Nat :=
  data.take size ++ List.replicate (size - data.length) 0

/-- The pair the single f.Read call returns: the byte count and whether
it reported an error.  A read of a zero-length buffer returns (0, nil);
a read at end of file with a non-empty buffer returns (0, io.EOF);
otherwise the call returns the transferred count with no error. -/
def fileRead (data : List Nat) (size : Nat) : Nat × Bool :=
  if size = 0 then (0, false)
  else if data.length = 0 then (0, true)
  else (min size data.length, false)

/-- main.go:55-85.  Open the file, build the record skeleton with name,
dir and extension-derived MIME type, issue one Read into a buffer of
the given size checking only the error result (the byte count is
discarded at main.go:70), sniff the content type when the extension was
unrecognized, then apply the compression decision.  The data argument
is what the file holds on disk at read time, which a concurrent
modification can make differ from the size reported by the earlier
lstat or stat call. -/
def readFile (std : Stdlib) (name : String) (size : Nat) (data : List Nat) :
    Except String siteFile :=
  let readErr := (fileRead data size).2
  if readErr then Except.error (name ++ ": read error")
  else
    let buf := readBuf data size
    let mt := std.mimeByExt (pathExt name)
    let mt := if mt = "" then std.detectContentType buf else mt
    let (gz, ok) := compressContents std buf
    let contents := match gz, ok with
      | some g, true => g
      | _, _ => buf
    Except.ok { name := pathBase name, dir := pathDir name,
                contents := contents, isGzipped := ok,
                mimeType := mt, lastModified := 0 }

/-! ## The file-system model

The walk in loadFiles inspects the tree with os.Lstat and os.Stat, so
the model distinguishes what each returns.  A file node carries both
the size the lstat/stat call reports and the bytes a read finds on
disk; the two agree unless the file is modified between the calls.
A symlink node wraps its target.  The operating-system facts encoded
here: the mode Lstat reports for a symlink has the symlink bit and not
the directory bit, so FileInfo.IsDir is false on every Lstat result for
a symlink; os.Stat follows symlinks all the way to the target. -/

inductive FSNode where
  | file (data : List Nat) (size : Nat) (modTime : Int)
  | dir (entries : List (String × FSNode))
  | symlink (target : FSNode)

structure FileInfo where
  isSymlink : Bool
  isDir : Bool
  size : Nat
  modTime : Int

/-- What os.Lstat reports for the object itself. -/
def lstatOf : FSNode → FileInfo
  | .file _ size mt => ⟨false, false, size, mt⟩
  | .dir _ => ⟨false, true, 0, 0⟩
  | .symlink _ => ⟨true, false, 0, 0⟩

/-- Follow symlinks to the underlying object, as os.Stat and the
subsequent open or ReadDir on the same path do. -/
def resolveNode : FSNode → FSNode
  | .symlink t => resolveNode t
  | .file d s mt => .file d s mt
  | .dir es => .dir es

/-- What os.Stat reports: the Lstat view of the resolved target. -/
def statOf (n : FSNode) : FileInfo := lstatOf (resolveNode n)

def dataOf : FSNode → List Nat
  | .file d _ _ => d
  | _ => []

def entriesOf : FSNode → List (String × FSNode)
  | .dir es => es
  | _ => []

theorem resolveNode_sizeOf_le : (n : FSNode) → sizeOf (resolveNode n) ≤ sizeOf n
  | .file d s mt => by simp [resolveNode]
  | .dir es => by simp [resolveNode]
  | .symlink t => by
    have h1 := resolveNode_sizeOf_le t
    have h2 : sizeOf (FSNode.symlink t) = 1 + sizeOf t := by simp
    simp only [resolveNode]
    omega

theorem entriesOf_sizeOf_lt (n : FSNode) : sizeOf (entriesOf n) < sizeOf n := by
  cases n with
  | file d s mt =>
    have h : 1 ≤ sizeOf d := by cases d <;> simp_arith
    simp [entriesOf]; omega
  | dir es => simp [entriesOf]
  | symlink t =>
    have h : 1 ≤ sizeOf t := by cases t <;> simp_arith
    simp [entriesOf]; omega

/-! ## The in-memory store (map string to record)

A Go map with string keys; an assignment overwrites, lookup of a
missing key yields the zero value (nil pointer, modelled as none). -/

abbrev Files := List (String × siteFile)

def mapSet (m : Files) (k : String) (v : siteFile) : Files := (k, v) :: m

def mapGet (m : Files) (k : String) : Option siteFile :=
  match m with
  | [] => none
  | (k2, v) :: rest => if k2 = k then some v else mapGet rest k

/-- main.go:141-146.  Store the record under dir/name, and when the
base name equals the configured index file name also under the bare
directory path (the directory-path alias); the alias assignment happens
first, as in the source. -/
def addFile (index : String) (f : siteFile) (files : Files) : Files :=
  let files := if f.name = index then mapSet files f.dir f else files
  mapSet files (pathJoin f.dir f.name) f

/-! ## The startup walk (main.go:98-139)

loadFiles models the method of the same name.  It inspects curPath with
Lstat; when the symlink bit is set it first tests IsDir on that same
Lstat result (main.go:104-106) and then re-inspects with Stat; a
non-directory is read and added, a directory has its entries walked
recursively through the path, which follows any symlink.  loadTarget is
the part of the body after the symlink handling, applied to the
resolved object (for a non-symlink, resolveNode is the identity, so
loadFiles node equals loadTarget node there); loadEntries is the
ReadDir loop. -/

mutual

def loadFiles (std : Stdlib) (index : String) (node : FSNode) (curPath : String)
    (files : Files) : Except String Files :=
  let fi := lstatOf node
  if fi.isSymlink ∧ fi.isDir then
    Except.error (curPath ++ ": directory symbolic links are not allowed")
  else
    loadTarget std index (resolveNode node) curPath files
termination_by 2 * sizeOf node + 1
decreasing_by
  have h := resolveNode_sizeOf_le node
  omega

def loadTarget (std : Stdlib) (index : String) (node : FSNode) (curPath : String)
    (files : Files) : Except String Files :=
  let fi := lstatOf node
  if ¬ fi.isDir then
    match readFile std curPath fi.size (dataOf node) with
    | .error e => .error e
    | .ok f => .ok (addFile index { f with lastModified := fi.modTime } files)
  else
    loadEntries std index (entriesOf node) curPath files
termination_by 2 * sizeOf node
decreasing_by
  have h := entriesOf_sizeOf_lt node
  omega

def loadEntries (std : Stdlib) (index : String) (ents : List (String × FSNode))
    (curPath : String) (files : Files) : Except String Files :=
  match ents with
  | [] => .ok files
  | (name, child) :: rest =>
    match loadFiles std index child (pathJoin curPath name) files with
    | .error e => .error e
    | .ok files2 => loadEntries std index rest curPath files2
termination_by 2 * sizeOf ents + 1
decreasing_by
  all_goals simp_wf
  all_goals omega

end

/-! Unfolding lemmas for the walk, one per node shape.  The walk is
defined by well-founded recursion, so these equations drive concrete
evaluation in the proofs below. -/

theorem loadFiles_file (std : Stdlib) (index : String) (d : List Nat) (sz : Nat) (mt : Int)
    (curPath : String) (files : Files) :
    loadFiles std index (.file d sz mt) curPath files =
      match readFile std curPath sz d with
      | .error e => .error e
      | .ok f => .ok (addFile index { f with lastModified := mt } files) := by
  rw [loadFiles.eq_def, loadTarget.eq_def]
  simp [lstatOf, resolveNode, dataOf]

theorem loadFiles_dir (std : Stdlib) (index : String) (es : List (String × FSNode))
    (curPath : String) (files : Files) :
    loadFiles std index (.dir es) curPath files = loadEntries std index es curPath files := by
  rw [loadFiles.eq_def, loadTarget.eq_def]
  simp [lstatOf, resolveNode, entriesOf]

/-- The key step for the walk at a symbolic link: the Lstat result has
the symlink bit and IsDir false, so the error branch at main.go:105-107
is not taken and the walk proceeds on the Stat-resolved target. -/
theorem loadFiles_symlink (std : Stdlib) (index : String) (t : FSNode)
    (curPath : String) (files : Files) :
    loadFiles std index (.symlink t) curPath files =
      loadTarget std index (resolveNode t) curPath files := by
  rw [loadFiles.eq_def]
  simp [lstatOf, resolveNode]

theorem loadTarget_file (std : Stdlib) (index : String) (d : List Nat) (sz : Nat) (mt : Int)
    (curPath : String) (files : Files) :
    loadTarget std index (.file d sz mt) curPath files =
      match readFile std curPath sz d with
      | .error e => .error e
      | .ok f => .ok (addFile index { f with lastModified := mt } files) := by
  rw [loadTarget.eq_def]
  simp [lstatOf, dataOf]

theorem loadTarget_dir (std : Stdlib) (index : String) (es : List (String × FSNode))
    (curPath : String) (files : Files) :
    loadTarget std index (.dir es) curPath files = loadEntries std index es curPath files := by
  rw [loadTarget.eq_def]
  simp [lstatOf, entriesOf]

theorem loadEntries_nil (std : Stdlib) (index : String) (curPath : String) (files : Files) :
    loadEntries std index [] curPath files = .ok files := by
  rw [loadEntries.eq_def]

theorem loadEntries_cons (std : Stdlib) (index : String) (name : String) (child : FSNode)
    (rest : List (String × FSNode)) (curPath : String) (files : Files) :
    loadEntries std index ((name, child) :: rest) curPath files =
      match loadFiles std index child (pathJoin curPath name) files with
      | .error e => .error e
      | .ok files2 => loadEntries std index rest curPath files2 := by
  rw [loadEntries.eq_def]

/-- Chained form of the previous lemma: once the walk of one entry is
known to succeed, the loop continues on the rest with the grown map. -/
theorem loadEntries_cons_ok (std : Stdlib) (index : String) (name : String) (child : FSNode)
    (rest : List (String × FSNode)) (curPath : String) (files files2 : Files)
    (h : loadFiles std index child (pathJoin curPath name) files = Except.ok files2) :
    loadEntries std index ((name, child) :: rest) curPath files =
      loadEntries std index rest curPath files2 := by
  rw [loadEntries_cons, h]

/-! ## The server (type memoryFileServer, main.go:87-96) -/

structure Server where
  name : String
  root : String
  files : Files
  index : String
  error404 : Option siteFile
  error404Name : String
  forceHTTPS : Bool
  addrHeader : String

/-- main.go:148-150.  Exact lookup of the root-joined request path. -/
def resolveFile (s : Server) (p : String) : Option siteFile :=
  mapGet s.files (pathJoin s.root p)

/-- An inbound request as the handler consumes it.  Header fields hold
what r.Header.Get returns: the empty string when the header is absent. -/
structure Request where
  method : String
  urlPath : String
  requestURI : String
  host : String
  remoteAddr : String
  ifModifiedSince : String
  xForwardedProto : String
deriving Repr, DecidableEq

/-- main.go:152-156.  Status 204 with the Allow list, no body. -/
def serveOptions : Response :=
  { status := 204, headers := { allow := some "OPTIONS, GET, HEAD" }, body := [] }

/-- main.go:158-170.  Without a fallback record, the generic
http.NotFound; with one, its headers and a 404 status, and its bytes
unless the method is HEAD. -/
def serve404 (std : Stdlib) (s : Server) (r : Request) : Response :=
  match s.error404 with
  | none => httpNotFound Headers.empty
  | some f =>
    { status := 404,
      headers := f.SetHeaders std Headers.empty,
      body := if r.method ≠ "HEAD" then f.contents else [] }

/-- main.go:172-174.  Permanent redirect to the parent directory. -/
def redirectIndex (r : Request) : Response :=
  httpRedirect r.method Headers.empty (pathDir r.urlPath) 301

/-- main.go:176-182.  Permanent redirect to the secure scheme, using
the configured server name when set, else the request host. -/
def redirectToHTTPS (s : Server) (r : Request) : Response :=
  let host := if s.name = "" then r.host else s.name
  httpRedirect r.method Headers.empty ("https://" ++ host ++ r.requestURI) 301

/-- main.go:184-190. -/
def shouldRedirectToHTTPS (s : Server) (r : Request) : Bool :=
  if ¬ s.forceHTTPS then false
  else r.xForwardedProto = "http"

/-- The fall-through tail of serveFile (main.go:219-223): headers, an
implicit 200, and the stored bytes unless the method is HEAD. -/
def serveContent (std : Stdlib) (f : siteFile) (r : Request) : Response :=
  { status := 200,
    headers := f.SetHeaders std Headers.empty,
    body := if r.method ≠ "HEAD" then f.contents else [] }

/-- main.go:192-224.  Resolve; absent goes to the 404 path; a request
path whose base name is the index name is redirected to its directory;
a present If-Modified-Since header is parsed (failure: bare 400) and a
timestamp not strictly before the record lastModified answers 304 with
the record headers and no body; otherwise the content is served. -/
def serveFile (std : Stdlib) (s : Server) (r : Request) : Response :=
  match resolveFile s r.urlPath with
  | none => serve404 std s r
  | some f =>
    if pathBase r.urlPath = s.index then redirectIndex r
    else
      if r.ifModifiedSince ≠ "" then
        match std.parseTime r.ifModifiedSince with
        | none => { status := 400, headers := Headers.empty, body := [] }
        | some t =>
          if ¬ (t < f.lastModified) then
            { status := 304, headers := f.SetHeaders std Headers.empty, body := [] }
          else serveContent std f r
      else serveContent std f r

/-- main.go:237-253.  Logging is a side effect with no bearing on the
response and is not modelled.  The HTTPS gate runs first; then the
method switch: OPTIONS, GET or HEAD, and 405 for everything else. -/
def ServeHTTP (std : Stdlib) (s : Server) (r : Request) : Response :=
  if shouldRedirectToHTTPS s r then redirectToHTTPS s r
  else if r.method = "OPTIONS" then serveOptions
  else if r.method = "GET" ∨ r.method = "HEAD" then serveFile std s r
  else { status := 405, headers := Headers.empty, body := [] }

/-- main.go:255-270.  Build the empty store, run the walk from the
root, then resolve the fallback-404 record by looking up the
root-joined configured fallback path in the finished store. -/
def newFileServer (std : Stdlib) (name root index fourOhFour : String)
    (forceHTTPS : Bool) (addrHeader : String) (rootNode : FSNode) :
    Except String Server :=
  match loadFiles std index rootNode root [] with
  | .error e => .error e
  | .ok files =>
    .ok { name := name, root := root, files := files, index := index,
          error404 := mapGet files (pathJoin root fourOhFour),
          error404Name := fourOhFour,
          forceHTTPS := forceHTTPS, addrHeader := addrHeader }

/-- When the walk succeeds, newFileServer packs the resulting store and
resolves the fallback record from it. -/
theorem newFileServer_ok (std : Stdlib) (name root index fof : String) (fh : Bool)
    (ah : String) (tree : FSNode) (files : Files)
    (h : loadFiles std index tree root [] = Except.ok files) :
    newFileServer std name root index fof fh ah tree =
      Except.ok { name := name, root := root, files := files, index := index,
                  error404 := mapGet files (pathJoin root fof),
                  error404Name := fof, forceHTTPS := fh, addrHeader := ah } := by
  delta newFileServer
  rw [h]

/-- Conversely, a successfully built server comes from a successful
walk and has exactly that shape. -/
theorem newFileServer_ok_inv (std : Stdlib) (name root index fof : String) (fh : Bool)
    (ah : String) (tree : FSNode) (s : Server)
    (h : newFileServer std name root index fof fh ah tree = Except.ok s) :
    ∃ files, loadFiles std index tree root [] = Except.ok files
      ∧ s = { name := name, root := root, files := files, index := index,
              error404 := mapGet files (pathJoin root fof),
              error404Name := fof, forceHTTPS := fh, addrHeader := ah } := by
  delta newFileServer at h
  rcases hl : loadFiles std index tree root [] with e | files
  · rw [hl] at h
    exact absurd h (by simp)
  · rw [hl] at h
    simp only [Except.ok.injEq] at h
    exact ⟨files, rfl, h.symm⟩

/-! ## Concrete fixtures for the claim-level theorems

std0 is one concrete standard-library instance: gzip always fails (and
so never compresses), extensions always resolve, HTTP dates parse only
for two fixed strings.  std1 compresses every input to the single byte
7.  The trees are small site layouts exercising the behaviours the
claims talk about, and the server values are the literal results of
running newFileServer on them. -/

def std0 : Stdlib :=
  { gzip := fun _ => none,
    mimeByExt := fun _ => "text/plain; charset=utf-8",
    detectContentType := fun _ => "application/octet-stream",
    parseTime := fun s => if s = "t49" then some 49 else if s = "t50" then some 50 else none,
    formatTime := fun t => toString t }

def std1 : Stdlib := { std0 with gzip := fun _ => some [7] }

/-- A plain request: no conditional header, no forwarded protocol. -/
def mkReq (m p : String) : Request :=
  { method := m, urlPath := p, requestURI := p, host := "h.example",
    remoteAddr := "10.0.0.9:1", ifModifiedSince := "", xForwardedProto := "" }

/-- A root with a regular file and a directory entry that is a symbolic
link to a directory holding b.txt (the claim C1 scenario). -/
def tree1 : FSNode := .dir
  [("a.txt", .file (strBytes "aa") 2 10),
   ("link", .symlink (.dir [("b.txt", .file (strBytes "bb") 2 20)]))]

def recA1 : siteFile :=
  { contents := strBytes "aa", mimeType := "text/plain; charset=utf-8",
    isGzipped := false, name := "a.txt", dir := "/site", lastModified := 10 }

def recB1 : siteFile :=
  { contents := strBytes "bb", mimeType := "text/plain; charset=utf-8",
    isGzipped := false, name := "b.txt", dir := "/site/link", lastModified := 20 }

def files1 : Files := [("/site/link/b.txt", recB1), ("/site/a.txt", recA1)]

def s1 : Server :=
  { name := "", root := "/site", files := files1, index := "index.html",
    error404 := none, error404Name := "", forceHTTPS := false, addrHeader := "" }

/-- A root whose only entry is a directory literally named like the
index file, containing an index file (the claim C5 edge case). -/
def tree5 : FSNode := .dir
  [("index.html", .dir [("index.html", .file (strBytes "X") 1 5)])]

def rec5 : siteFile :=
  { contents := strBytes "X", mimeType := "text/plain; charset=utf-8",
    isGzipped := false, name := "index.html", dir := "/site/index.html",
    lastModified := 5 }

def files5 : Files := [("/site/index.html/index.html", rec5), ("/site/index.html", rec5)]

def s5 : Server :=
  { name := "", root := "/site", files := files5, index := "index.html",
    error404 := none, error404Name := "", forceHTTPS := false, addrHeader := "" }

/-- A root holding an index file and a plain file, with no fallback-404
path configured (the claim C8 and C10 scenario). -/
def tree10 : FSNode := .dir
  [("index.html", .file (strBytes "home") 4 100),
   ("a.txt", .file (strBytes "aa") 2 50)]

def rec10 : siteFile :=
  { contents := strBytes "home", mimeType := "text/plain; charset=utf-8",
    isGzipped := false, name := "index.html", dir := "/site", lastModified := 100 }

def recA10 : siteFile :=
  { contents := strBytes "aa", mimeType := "text/plain; charset=utf-8",
    isGzipped := false, name := "a.txt", dir := "/site", lastModified := 50 }

def files10 : Files :=
  [("/site/a.txt", recA10), ("/site/index.html", rec10), ("/site", rec10)]

def s10 : Server :=
  { name := "", root := "/site", files := files10, index := "index.html",
    error404 := some rec10, error404Name := "", forceHTTPS := false, addrHeader := "" }

/-- The record readFile builds from the two bytes of "hi" under std1,
whose gzip compresses everything to the single byte 7. -/
def rec31 : siteFile :=
  { contents := [7], mimeType := "text/plain; charset=utf-8",
    isGzipped := true, name := "hi.txt", dir := "/site", lastModified := 0 }

/-! Concrete runs of the walk on the three fixture trees, one rewrite
per visited node. -/

theorem tree1_load : loadFiles std0 "index.html" tree1 "/site" [] = Except.ok files1 := by
  have h1 : loadFiles std0 "index.html" (.file (strBytes "aa") 2 10)
      (pathJoin "/site" "a.txt") [] = Except.ok [("/site/a.txt", recA1)] := by
    rw [loadFiles_file]
    rfl
  have h2 : loadFiles std0 "index.html"
      (.symlink (.dir [("b.txt", .file (strBytes "bb") 2 20)]))
      (pathJoin "/site" "link") [("/site/a.txt", recA1)] = Except.ok files1 := by
    have h3 : loadFiles std0 "index.html" (.file (strBytes "bb") 2 20)
        (pathJoin (pathJoin "/site" "link") "b.txt") [("/site/a.txt", recA1)]
        = Except.ok files1 := by
      rw [loadFiles_file]
      rfl
    rw [loadFiles_symlink,
      show resolveNode (.dir [("b.txt", .file (strBytes "bb") 2 20)])
        = FSNode.dir [("b.txt", .file (strBytes "bb") 2 20)] from rfl,
      loadTarget_dir,
      loadEntries_cons_ok _ _ _ _ _ _ _ _ h3, loadEntries_nil]
  rw [show tree1 = FSNode.dir
      [("a.txt", .file (strBytes "aa") 2 10),
       ("link", .symlink (.dir [("b.txt", .file (strBytes "bb") 2 20)]))] from rfl,
    loadFiles_dir,
    loadEntries_cons_ok _ _ _ _ _ _ _ _ h1,
    loadEntries_cons_ok _ _ _ _ _ _ _ _ h2,
    loadEntries_nil]

theorem newFileServer_tree1 :
    newFileServer std0 "" "/site" "index.html" "" false "" tree1 = Except.ok s1 := by
  rw [newFileServer_ok std0 "" "/site" "index.html" "" false "" tree1 files1 tree1_load]
  rfl

theorem tree5_load : loadFiles std0 "index.html" tree5 "/site" [] = Except.ok files5 := by
  have h1 : loadFiles std0 "index.html"
      (.dir [("index.html", .file (strBytes "X") 1 5)])
      (pathJoin "/site" "index.html") [] = Except.ok files5 := by
    have h2 : loadFiles std0 "index.html" (.file (strBytes "X") 1 5)
        (pathJoin (pathJoin "/site" "index.html") "index.html") []
        = Except.ok files5 := by
      rw [loadFiles_file]
      rfl
    rw [loadFiles_dir, loadEntries_cons_ok _ _ _ _ _ _ _ _ h2, loadEntries_nil]
  rw [show tree5 = FSNode.dir
      [("index.html", .dir [("index.html", .file (strBytes "X") 1 5)])] from rfl,
    loadFiles_dir,
    loadEntries_cons_ok _ _ _ _ _ _ _ _ h1,
    loadEntries_nil]

theorem newFileServer_tree5 :
    newFileServer std0 "" "/site" "index.html" "" false "" tree5 = Except.ok s5 := by
  rw [newFileServer_ok std0 "" "/site" "index.html" "" false "" tree5 files5 tree5_load]
  rfl

theorem tree10_load : loadFiles std0 "index.html" tree10 "/site" [] = Except.ok files10 := by
  have h1 : loadFiles std0 "index.html" (.file (strBytes "home") 4 100)
      (pathJoin "/site" "index.html") []
      = Except.ok [("/site/index.html", rec10), ("/site", rec10)] := by
    rw [loadFiles_file]
    rfl
  have h2 : loadFiles std0 "index.html" (.file (strBytes "aa") 2 50)
      (pathJoin "/site" "a.txt") [("/site/index.html", rec10), ("/site", rec10)]
      = Except.ok files10 := by
    rw [loadFiles_file]
    rfl
  rw [show tree10 = FSNode.dir
      [("index.html", .file (strBytes "home") 4 100),
       ("a.txt", .file (strBytes "aa") 2 50)] from rfl,
    loadFiles_dir,
    loadEntries_cons_ok _ _ _ _ _ _ _ _ h1,
    loadEntries_cons_ok _ _ _ _ _ _ _ _ h2,
    loadEntries_nil]

theorem newFileServer_tree10 :
    newFileServer std0 "" "/site" "index.html" "" false "" tree10 = Except.ok s10 := by
  rw [newFileServer_ok std0 "" "/site" "index.html" "" false "" tree10 files10 tree10_load]
  rfl

/-! ## General facts about httpRedirect shared by several proofs -/

theorem httpRedirect_status (m : String) (h : Headers) (url : String) (code : Nat) :
    (httpRedirect m h url code).status = code := by
  simp only [httpRedirect]
  split <;> rfl

theorem httpRedirect_location (m : String) (h : Headers) (url : String) (code : Nat) :
    (httpRedirect m h url code).headers.location = some (hexEscapeNonASCII url) := by
  simp only [httpRedirect]
  split <;> rfl

/-! ## The claims -/

/-- Claim C1: the claim states that a directory entry that is a symbolic
link to a directory makes loading fail, with newFileServer returning an
error and the linked contents never stored.  The code does not do this:
the check at main.go:105 asks IsDir of an Lstat result, and the mode an
Lstat reports for a symbolic link never has the directory bit, so the
error branch is unreachable; the subsequent Stat and ReadDir follow the
link.  On tree1, whose entry link points at a directory holding b.txt,
newFileServer succeeds and the store holds the file reached through the
link. -/
theorem c1_directory_symlink_followed :
    newFileServer std0 "" "/site" "index.html" "" false "" tree1 = Except.ok s1
    ∧ mapGet s1.files "/site/link/b.txt" = some recB1 :=
  ⟨newFileServer_tree1, rfl⟩

/-- Claim C2: the claim states that a read whose byte count differs
from the stat-reported size makes loading that file fail.  The code
discards the byte count of its single Read call (main.go:70), so a file
whose bytes at read time ("hi", two bytes) fall short of the reported
size (four) loads without error into a zero-padded record, and the walk
accepts it. -/
theorem c2_short_read_not_detected :
    (fileRead (strBytes "hi") 4).1 = 2
    ∧ readFile std0 "/site/hi.txt" 4 (strBytes "hi") =
        Except.ok { contents := [104, 105, 0, 0],
                    mimeType := "text/plain; charset=utf-8", isGzipped := false,
                    name := "hi.txt", dir := "/site", lastModified := 0 }
    ∧ (loadFiles std0 "index.html" (.file (strBytes "hi") 4 9) "/site/hi.txt" []).isOk
        = true := by
  refine ⟨rfl, rfl, ?_⟩
  rw [loadFiles_file]
  rfl

/-- Claim C3: for every record readFile produces, isGzipped holds iff
gzip succeeded and strictly shrank the read buffer, in which case the
record holds the compressed bytes; otherwise the record holds the
buffer with isGzipped false; and the outcome of gzip never decides
whether readFile succeeds. -/
theorem c3_compression_decision (std : Stdlib) (name : String) (size : Nat)
    (data : List Nat) (f : siteFile)
    (h : readFile std name size data = Except.ok f) :
    (f.isGzipped = true ↔
      ∃ gz, std.gzip (readBuf data size) = some gz
        ∧ gz.length < (readBuf data size).length)
    ∧ (f.isGzipped = true → std.gzip (readBuf data size) = some f.contents)
    ∧ (f.isGzipped = false → f.contents = readBuf data size)
    ∧ ∀ g, (readFile { std with gzip := g } name size data).isOk = true := by
  simp only [readFile] at h
  split at h
  · exact absurd h (by simp)
  case isFalse hrd =>
    have hok : ∀ g, (readFile { std with gzip := g } name size data).isOk = true := by
      intro g
      simp only [readFile]
      split
      · case isTrue h2 => exact absurd h2 hrd
      · rfl
    rw [Except.ok.injEq] at h
    subst h
    rcases hg : std.gzip (readBuf data size) with _ | gz
    · refine ⟨?_, ?_, ?_, hok⟩ <;> simp [compressContents, hg]
    · by_cases hlen : (readBuf data size).length ≤ gz.length
      · refine ⟨?_, ?_, ?_, hok⟩
        · simp [compressContents, hg, hlen]
        · simp [compressContents, hg, hlen]
        · simp [compressContents, hg, hlen]
      · refine ⟨?_, ?_, ?_, hok⟩
        · simp [compressContents, hg, hlen]
          omega
        · simp [compressContents, hg, hlen]
        · simp [compressContents, hg, hlen]

/-- Witness for C3 at a concrete input: under std1 (gzip shrinks the
two-byte buffer to the single byte 7) readFile marks the record
compressed and stores the compressed byte, and replacing gzip cannot
make readFile fail. -/
theorem c3_compression_decision_witness :
    (rec31.isGzipped = true ↔
      ∃ gz, std1.gzip (readBuf (strBytes "hi") 2) = some gz
        ∧ gz.length < (readBuf (strBytes "hi") 2).length)
    ∧ (rec31.isGzipped = true →
        std1.gzip (readBuf (strBytes "hi") 2) = some rec31.contents)
    ∧ (rec31.isGzipped = false → rec31.contents = readBuf (strBytes "hi") 2)
    ∧ ∀ g, (readFile { std1 with gzip := g } "/site/hi.txt" 2 (strBytes "hi")).isOk
        = true :=
  c3_compression_decision std1 "/site/hi.txt" 2 (strBytes "hi") rec31 (by rfl)

/-- Claim C4: for a GET or HEAD request whose path resolves and is not
the index-name case, an If-Modified-Since value that fails to parse
yields a bare 400; a parsed timestamp not strictly before the record
lastModified yields 304 with the record headers (Content-Length,
Content-Type, Last-Modified, Content-Encoding if compressed) and no
body regardless of method; a strictly earlier timestamp yields 200 with
the full body for GET. -/
theorem c4_conditional_caching (std : Stdlib) (s : Server) (r : Request) (f : siteFile)
    (hres : resolveFile s r.urlPath = some f)
    (hidx : pathBase r.urlPath ≠ s.index)
    (_hmeth : r.method = "GET" ∨ r.method = "HEAD") :
    (std.parseTime r.ifModifiedSince = none → r.ifModifiedSince ≠ "" →
       serveFile std s r = { status := 400, headers := Headers.empty, body := [] })
    ∧ (∀ t, std.parseTime r.ifModifiedSince = some t → r.ifModifiedSince ≠ "" →
        ¬ t < f.lastModified →
        serveFile std s r =
          { status := 304, headers := f.SetHeaders std Headers.empty, body := [] }
        ∧ (f.SetHeaders std Headers.empty).contentLength
            = some (toString f.contents.length)
        ∧ (f.SetHeaders std Headers.empty).contentType = some f.mimeType
        ∧ (f.SetHeaders std Headers.empty).lastModified
            = some (std.formatTime f.lastModified)
        ∧ (f.SetHeaders std Headers.empty).contentEncoding
            = (if f.isGzipped then some "gzip" else none))
    ∧ (∀ t, std.parseTime r.ifModifiedSince = some t → r.ifModifiedSince ≠ "" →
        t < f.lastModified → r.method = "GET" →
        serveFile std s r =
          { status := 200, headers := f.SetHeaders std Headers.empty,
            body := f.contents }) := by
  refine ⟨?_, ?_, ?_⟩
  · intro hp hne
    simp [serveFile, hres, hidx, hne, hp]
  · intro t hp hne hb
    refine ⟨by simp [serveFile, hres, hidx, hne, hp, hb], ?_, ?_, ?_, ?_⟩ <;>
      cases hgz : f.isGzipped <;> simp [siteFile.SetHeaders, hgz, Headers.empty]
  · intro t hp hne hlt hm
    simp [serveFile, serveContent, hres, hidx, hne, hp, hlt, hm]

/-- Witness for C4 on the s10 store: for /a.txt (lastModified 50), the
parsing date t50 is not strictly earlier and yields 304, t49 is
strictly earlier and yields 200 with the body, and an unparsable value
yields 400. -/
theorem c4_conditional_caching_witness :
    serveFile std0 s10 { mkReq "GET" "/a.txt" with ifModifiedSince := "t50" }
      = { status := 304, headers := recA10.SetHeaders std0 Headers.empty, body := [] }
    ∧ serveFile std0 s10 { mkReq "GET" "/a.txt" with ifModifiedSince := "t49" }
      = { status := 200, headers := recA10.SetHeaders std0 Headers.empty,
          body := recA10.contents }
    ∧ serveFile std0 s10 { mkReq "GET" "/a.txt" with ifModifiedSince := "bogus" }
      = { status := 400, headers := Headers.empty, body := [] } := by
  refine ⟨?_, ?_, ?_⟩
  · exact ((c4_conditional_caching std0 s10
      { mkReq "GET" "/a.txt" with ifModifiedSince := "t50" } recA10
      rfl (by decide) (Or.inl rfl)).2.1 50 rfl (by decide) (by decide)).1
  · exact (c4_conditional_caching std0 s10
      { mkReq "GET" "/a.txt" with ifModifiedSince := "t49" } recA10
      rfl (by decide) (Or.inl rfl)).2.2 49 rfl (by decide) (by decide) rfl
  · exact (c4_conditional_caching std0 s10
      { mkReq "GET" "/a.txt" with ifModifiedSince := "bogus" } recA10
      rfl (by decide) (Or.inl rfl)).1 rfl (by decide)

/-- Counterexample to C5 as stated: tree5 is a root whose only entry is
a directory literally named index.html which contains an index file, so
the directory-path alias makes the bare directory path /index.html
resolve; the claim then promises a 200 with the index content, but the
handler sees a request path whose base name equals the index name and
answers 301. -/
theorem c5_counterexample :
    newFileServer std0 "" "/site" "index.html" "" false "" tree5 = Except.ok s5
    ∧ rec5.name = s5.index
    ∧ resolveFile s5 "/index.html" = some rec5
    ∧ (ServeHTTP std0 s5 (mkReq "GET" "/index.html")).status = 301
    ∧ ¬ (ServeHTTP std0 s5 (mkReq "GET" "/index.html")).status = 200 :=
  ⟨newFileServer_tree5, rfl, rfl, rfl, by decide⟩

/-- Claim C5 as amended: a plain GET of a resolving path whose base
name is not the index name (in particular a directory path that is not
itself named like the index file) answers 200 with the record content;
every resolving path whose base name equals the index name answers a
301 redirect to the parent directory and never a 200; and addFile
stores an index-named record both under its directory key and under the
dir/name key. -/
theorem c5_index_canonicalization (std : Stdlib) (s : Server) :
    (∀ r f, resolveFile s r.urlPath = some f → pathBase r.urlPath ≠ s.index →
       r.method = "GET" → r.ifModifiedSince = "" →
       serveFile std s r = { status := 200, headers := f.SetHeaders std Headers.empty,
                             body := f.contents })
    ∧ (∀ r, (resolveFile s r.urlPath).isSome = true → pathBase r.urlPath = s.index →
       serveFile std s r = httpRedirect r.method Headers.empty (pathDir r.urlPath) 301
       ∧ (serveFile std s r).status = 301 ∧ ¬ (serveFile std s r).status = 200)
    ∧ (∀ f files, f.name = s.index →
       mapGet (addFile s.index f files) f.dir = some f
       ∧ mapGet (addFile s.index f files) (pathJoin f.dir f.name) = some f) := by
  refine ⟨?_, ?_, ?_⟩
  · intro r f hres hidx hm hmod
    simp [serveFile, hres, hidx, hmod, serveContent, hm]
  · intro r hs hidx
    obtain ⟨f, hf⟩ := Option.isSome_iff_exists.mp hs
    have h0 : serveFile std s r = redirectIndex r := by simp [serveFile, hf, hidx]
    rw [h0]
    refine ⟨rfl, httpRedirect_status _ _ _ _, ?_⟩
    rw [redirectIndex, httpRedirect_status]
    omega
  · intro f files hname
    constructor
    · by_cases hj : pathJoin f.dir f.name = f.dir <;>
        simp [addFile, hname, mapSet, mapGet, hj]
    · simp [addFile, hname, mapSet, mapGet]

/-- Witness for C5 as amended, on the s10 store: a plain GET of the
non-index path /a.txt is a 200 with its content, a GET of /index.html
is a 301, and addFile aliases rec10 under its directory key. -/
theorem c5_index_canonicalization_witness :
    serveFile std0 s10 (mkReq "GET" "/a.txt")
      = { status := 200, headers := recA10.SetHeaders std0 Headers.empty,
          body := recA10.contents }
    ∧ (serveFile std0 s10 (mkReq "GET" "/index.html")).status = 301
    ∧ mapGet (addFile s10.index rec10 []) rec10.dir = some rec10 := by
  refine ⟨?_, ?_, ?_⟩
  · exact (c5_index_canonicalization std0 s10).1 (mkReq "GET" "/a.txt") recA10
      rfl (by decide) rfl rfl
  · exact ((c5_index_canonicalization std0 s10).2.1 (mkReq "GET" "/index.html")
      rfl rfl).2.1
  · exact ((c5_index_canonicalization std0 s10).2.2 rec10 [] rfl).1

/-- Claim C6: with HTTPS enforcement on and the header X-Forwarded-Proto
literally "http", every request of any method and any path is answered
with the 301 redirect to https:// followed by the configured name (or
the request host when the name is unset) followed by the original
request URI, and the store and fallback record have no influence. -/
theorem c6_https_enforcement (std : Stdlib) (s : Server) (r : Request)
    (h1 : s.forceHTTPS = true) (h2 : r.xForwardedProto = "http") :
    ServeHTTP std s r =
      httpRedirect r.method Headers.empty
        ("https://" ++ (if s.name = "" then r.host else s.name) ++ r.requestURI) 301
    ∧ (ServeHTTP std s r).status = 301
    ∧ (ServeHTTP std s r).headers.location =
        some (hexEscapeNonASCII
          ("https://" ++ (if s.name = "" then r.host else s.name) ++ r.requestURI))
    ∧ ∀ files2 e404, ServeHTTP std { s with files := files2, error404 := e404 } r
        = ServeHTTP std s r := by
  have hred : shouldRedirectToHTTPS s r = true := by
    simp [shouldRedirectToHTTPS, h1, h2]
  have h0 : ServeHTTP std s r = redirectToHTTPS s r := by simp [ServeHTTP, hred]
  refine ⟨?_, ?_, ?_, ?_⟩
  · rw [h0]; rfl
  · rw [h0]; simp only [redirectToHTTPS]; exact httpRedirect_status _ _ _ _
  · rw [h0]; simp only [redirectToHTTPS]; exact httpRedirect_location _ _ _ _
  · intro files2 e404
    have hred2 : shouldRedirectToHTTPS { s with files := files2, error404 := e404 } r
        = true := by
      simp [shouldRedirectToHTTPS, h1, h2]
    simp [ServeHTTP, hred, hred2, redirectToHTTPS]

/-- Witness for C6: a DELETE of an unresolvable path with the forwarded
header set is answered 301 to the https scheme before any dispatch. -/
theorem c6_https_enforcement_witness :
    (ServeHTTP std0 { s10 with forceHTTPS := true }
        { mkReq "DELETE" "/zz" with xForwardedProto := "http" }).status = 301
    ∧ (ServeHTTP std0 { s10 with forceHTTPS := true }
        { mkReq "DELETE" "/zz" with xForwardedProto := "http" }).headers.location
        = some "https://h.example/zz" := by
  have h := c6_https_enforcement std0 { s10 with forceHTTPS := true }
    { mkReq "DELETE" "/zz" with xForwardedProto := "http" } rfl rfl
  exact ⟨h.2.1, by rw [h.2.2.1]; rfl⟩

/-- Counterexample to C7 as stated: on the s10 store the path
/index.html resolves and is canonicalized with a 301 through
http.Redirect, which sets an HTML Content-Type (and writes a body) only
for GET; the HEAD twin carries the same status but different headers,
against the claim that headers agree for every request path. -/
theorem c7_counterexample :
    (ServeHTTP std0 s10 (mkReq "GET" "/index.html")).status
      = (ServeHTTP std0 s10 (mkReq "HEAD" "/index.html")).status
    ∧ (ServeHTTP std0 s10 (mkReq "GET" "/index.html")).headers
      ≠ (ServeHTTP std0 s10 (mkReq "HEAD" "/index.html")).headers :=
  ⟨rfl, by decide⟩

/-- Claim C7 as amended: a HEAD and its GET twin always agree on the
status code; their headers agree on every non-redirect outcome, while
on a 301 the GET response additionally carries the HTML Content-Type
(http.Redirect writes its link body only for GET); on the wire the HEAD
body is always empty (net/http discards body writes for HEAD), and at
handler level the only HEAD body ever written is the generic 404 text,
which http.Error emits regardless of method. -/
theorem c7_head_get_parity (std : Stdlib) (s : Server) (r : Request) :
    (ServeHTTP std s { r with method := "GET" }).status
      = (ServeHTTP std s { r with method := "HEAD" }).status
    ∧ (wireResponse "HEAD" (ServeHTTP std s { r with method := "HEAD" })).body = []
    ∧ ((ServeHTTP std s { r with method := "GET" }).status ≠ 301 →
        (ServeHTTP std s { r with method := "GET" }).headers
          = (ServeHTTP std s { r with method := "HEAD" }).headers)
    ∧ ((ServeHTTP std s { r with method := "GET" }).status = 301 →
        (ServeHTTP std s { r with method := "HEAD" }).headers
          = { (ServeHTTP std s { r with method := "GET" }).headers with
                contentType := none }
        ∧ (ServeHTTP std s { r with method := "HEAD" }).body = [])
    ∧ ((ServeHTTP std s { r with method := "HEAD" }).body = [] ∨
        ((ServeHTTP std s { r with method := "HEAD" }).status = 404
         ∧ (ServeHTTP std s { r with method := "HEAD" }).body
             = strBytes "404 page not found\n")) := by
  by_cases hred : shouldRedirectToHTTPS s r = true
  · have hG : ServeHTTP std s { r with method := "GET" } =
        httpRedirect "GET" Headers.empty
          ("https://" ++ (if s.name = "" then r.host else s.name) ++ r.requestURI)
          301 := by
      simp [ServeHTTP, shouldRedirectToHTTPS, redirectToHTTPS] at hred ⊢
      simp [hred]
    have hH : ServeHTTP std s { r with method := "HEAD" } =
        httpRedirect "HEAD" Headers.empty
          ("https://" ++ (if s.name = "" then r.host else s.name) ++ r.requestURI)
          301 := by
      simp [ServeHTTP, shouldRedirectToHTTPS, redirectToHTTPS] at hred ⊢
      simp [hred]
    rw [hG, hH]
    refine ⟨?_, ?_, ?_, ?_, ?_⟩ <;>
      simp [httpRedirect, wireResponse, Headers.empty]
  · have hG : ServeHTTP std s { r with method := "GET" } =
        serveFile std s { r with method := "GET" } := by
      simp only [ServeHTTP]
      rw [if_neg (by exact fun hc => hred hc)]
      simp
    have hH : ServeHTTP std s { r with method := "HEAD" } =
        serveFile std s { r with method := "HEAD" } := by
      simp only [ServeHTTP]
      rw [if_neg (by exact fun hc => hred hc)]
      simp
    rw [hG, hH]
    rcases hr : resolveFile s r.urlPath with _ | f
    · rcases h4 : s.error404 with _ | f4
      · refine ⟨?_, ?_, ?_, ?_, ?_⟩ <;>
          simp [serveFile, serve404, hr, h4, httpNotFound, httpError, wireResponse,
            Headers.empty]
      · refine ⟨?_, ?_, ?_, ?_, ?_⟩ <;>
          simp [serveFile, serve404, hr, h4, wireResponse]
    · by_cases hidx : pathBase r.urlPath = s.index
      · have hG2 : serveFile std s { r with method := "GET" } =
            httpRedirect "GET" Headers.empty (pathDir r.urlPath) 301 := by
          simp [serveFile, hr, hidx, redirectIndex]
        have hH2 : serveFile std s { r with method := "HEAD" } =
            httpRedirect "HEAD" Headers.empty (pathDir r.urlPath) 301 := by
          simp [serveFile, hr, hidx, redirectIndex]
        rw [hG2, hH2]
        refine ⟨?_, ?_, ?_, ?_, ?_⟩ <;>
          simp [httpRedirect, wireResponse, Headers.empty]
      · by_cases hmod : r.ifModifiedSince = ""
        · refine ⟨?_, ?_, ?_, ?_, ?_⟩ <;>
            simp [serveFile, serveContent, hr, hidx, hmod, wireResponse]
        · rcases hp : std.parseTime r.ifModifiedSince with _ | t
          · refine ⟨?_, ?_, ?_, ?_, ?_⟩ <;>
              simp [serveFile, hr, hidx, hmod, hp, wireResponse]
          · by_cases hb : t < f.lastModified
            · refine ⟨?_, ?_, ?_, ?_, ?_⟩ <;>
                simp [serveFile, serveContent, hr, hidx, hmod, hp, hb, wireResponse]
            · refine ⟨?_, ?_, ?_, ?_, ?_⟩ <;>
                simp [serveFile, hr, hidx, hmod, hp, hb, wireResponse]

/-- Witness for C7 as amended at a redirect outcome: on s10 the GET and
HEAD of /index.html agree on the status and the HEAD headers are the
GET headers stripped of Content-Type. -/
theorem c7_head_get_parity_witness :
    (ServeHTTP std0 s10 (mkReq "GET" "/index.html")).status
      = (ServeHTTP std0 s10 (mkReq "HEAD" "/index.html")).status
    ∧ (ServeHTTP std0 s10 (mkReq "HEAD" "/index.html")).headers
      = { (ServeHTTP std0 s10 (mkReq "GET" "/index.html")).headers with
            contentType := none } := by
  have h := c7_head_get_parity std0 s10 (mkReq "GET" "/index.html")
  exact ⟨h.1, (h.2.2.2.1 (by rfl)).1⟩

/-- Counterexample to C8 as stated: on tree10 no fallback-404 path is
configured (the flag default is the empty string), yet the startup
lookup path-joins the empty string onto the root, which yields the root
itself, and the root carries the index alias; so an unresolvable GET is
answered with the root index record as a custom 404 body instead of the
generic not-found response the claim promises. -/
theorem c8_counterexample :
    newFileServer std0 "" "/site" "index.html" "" false "" tree10 = Except.ok s10
    ∧ s10.error404Name = ""
    ∧ resolveFile s10 "/nope" = none
    ∧ s10.error404 = some rec10
    ∧ (ServeHTTP std0 s10 (mkReq "GET" "/nope")).body = rec10.contents
    ∧ ServeHTTP std0 s10 (mkReq "GET" "/nope") ≠ httpNotFound Headers.empty :=
  ⟨newFileServer_tree10, rfl, rfl, rfl, rfl, by decide⟩

/-- Claim C8 as amended: the fallback record is whatever the store
holds under the root-joined configured fallback path (for the empty,
unconfigured path this is the root key itself, which the index alias
can populate).  When that lookup is empty, every unresolvable GET or
HEAD gets the generic not-found response; when it holds a record, every
such request gets 404 with that record headers and its body unless the
method is HEAD. -/
theorem c8_fallback_resolution (std : Stdlib) (name root index fof : String)
    (fh : Bool) (ah : String) (tree : FSNode) (s : Server)
    (hs : newFileServer std name root index fof fh ah tree = Except.ok s) :
    s.error404 = mapGet s.files (pathJoin root fof)
    ∧ (mapGet s.files (pathJoin root fof) = none →
       ∀ r, r.method = "GET" ∨ r.method = "HEAD" → resolveFile s r.urlPath = none →
         shouldRedirectToHTTPS s r = false →
         ServeHTTP std s r = httpNotFound Headers.empty)
    ∧ (∀ f, mapGet s.files (pathJoin root fof) = some f →
       ∀ r, r.method = "GET" ∨ r.method = "HEAD" → resolveFile s r.urlPath = none →
         shouldRedirectToHTTPS s r = false →
         ServeHTTP std s r =
           { status := 404, headers := f.SetHeaders std Headers.empty,
             body := if r.method ≠ "HEAD" then f.contents else [] }) := by
  obtain ⟨files, hl, hsrv⟩ := newFileServer_ok_inv std name root index fof fh ah tree s hs
  subst hsrv
  refine ⟨rfl, ?_, ?_⟩
  · intro hnone r hm hres hnored
    rcases hm with hm | hm <;>
      (simp only [ServeHTTP, hnored, hm, serveFile, hres, serve404]
       simp [hnone, httpNotFound, httpError, hm])
  · intro f hf r hm hres hnored
    rcases hm with hm | hm <;>
      (simp only [ServeHTTP, hnored, hm, serveFile, hres, serve404]
       simp [hf, hm])

/-- Witness for C8 as amended: on tree10 the root-joined empty fallback
path resolves to the root index record, so an unresolvable HEAD is
answered 404 with its headers and no body. -/
theorem c8_fallback_resolution_witness :
    ServeHTTP std0 s10 (mkReq "HEAD" "/nope")
      = { status := 404, headers := rec10.SetHeaders std0 Headers.empty,
          body := [] } := by
  have h := (c8_fallback_resolution std0 "" "/site" "index.html" "" false "" tree10 s10
    newFileServer_tree10).2.2
    rec10 rfl (mkReq "HEAD" "/nope") (Or.inr rfl) rfl rfl
  simpa using h

/-- Claim C9: resolution is an exact lookup of the root-joined cleaned
request path: two request paths with the same root-joined normalization
resolve identically (duplicate slashes, dot and dotdot segments, and
trailing slashes disappear in the join, as the closing concrete
equations show), and a path whose normalized join is not a store key
falls through to the 404 path. -/
theorem c9_exact_resolution (s : Server) :
    (∀ p1 p2, pathJoin s.root p1 = pathJoin s.root p2 →
       resolveFile s p1 = resolveFile s p2)
    ∧ (∀ std r, mapGet s.files (pathJoin s.root r.urlPath) = none →
        resolveFile s r.urlPath = none ∧ serveFile std s r = serve404 std s r)
    ∧ pathJoin "/site" "/a//b/./c/../d/" = pathJoin "/site" "/a/b/d"
    ∧ pathJoin "/site" "//x/" = pathJoin "/site" "/x"
    ∧ pathJoin "/site" "/x/./" = pathJoin "/site" "/x" := by
  refine ⟨?_, ?_, by decide, by decide, by decide⟩
  · intro p1 p2 h
    simp [resolveFile, h]
  · intro std r h
    have h1 : resolveFile s r.urlPath = none := by simp [resolveFile, h]
    exact ⟨h1, by simp [serveFile, h1]⟩

/-- Witness for C9 on the s10 store: a doubled-slash, trailing-slash
variant of /a.txt resolves like /a.txt, and an unresolvable path takes
the 404 branch. -/
theorem c9_exact_resolution_witness :
    resolveFile s10 "//a.txt/" = resolveFile s10 "/a.txt"
    ∧ resolveFile s10 "/zz" = none
    ∧ serveFile std0 s10 (mkReq "GET" "/zz") = serve404 std0 s10 (mkReq "GET" "/zz") := by
  have h := c9_exact_resolution s10
  refine ⟨h.1 "//a.txt/" "/a.txt" (by decide), ?_, ?_⟩
  · exact (h.2.1 std0 (mkReq "GET" "/zz") rfl).1
  · exact (h.2.1 std0 (mkReq "GET" "/zz") rfl).2

/-- Claim C10: with the fallback path left empty and an index file
directly under the root (tree10), the startup lookup of the root-joined
empty path lands on the root index alias, so every unresolvable GET is
answered 404 with the root index record headers and body. -/
theorem c10_unconfigured_fallback_serves_root_index (r : Request)
    (hm : r.method = "GET")
    (hres : resolveFile s10 r.urlPath = none) :
    newFileServer std0 "" "/site" "index.html" "" false "" tree10 = Except.ok s10
    ∧ pathJoin s10.root s10.error404Name = "/site"
    ∧ s10.error404 = some rec10
    ∧ rec10.name = s10.index ∧ rec10.dir = "/site"
    ∧ ServeHTTP std0 s10 r =
        { status := 404, headers := rec10.SetHeaders std0 Headers.empty,
          body := rec10.contents } := by
  refine ⟨newFileServer_tree10, rfl, rfl, rfl, rfl, ?_⟩
  · have hnored : shouldRedirectToHTTPS s10 r = false := rfl
    have h404 : s10.error404 = some rec10 := rfl
    simp [ServeHTTP, hnored, hm, serveFile, hres, serve404, h404]

/-- Witness for C10: the unresolvable path /nope on the s10 store. -/
theorem c10_unconfigured_fallback_serves_root_index_witness :
    resolveFile s10 "/nope" = none
    ∧ ServeHTTP std0 s10 (mkReq "GET" "/nope")
      = { status := 404, headers := rec10.SetHeaders std0 Headers.empty,
          body := rec10.contents } :=
  ⟨rfl, (c10_unconfigured_fallback_serves_root_index (mkReq "GET" "/nope")
    rfl rfl).2.2.2.2.2⟩

end Marb
